import Mathlib

/-!
Verification of the alarm/reminder triggering and cross-device
notification-dispatch subsystem of the `mypa` repository.

The definitions below are a shallow embedding of the TypeScript source:

* the server scheduler `checkAndSendAlarms` (src/unnamed/part_016),
* the push dispatcher `sendPushNotification` (src/unnamed/part_013),
* the client trigger coordinator `GlobalAlarmHandler`
  (src/client/src/components/global-alarm-handler.tsx):
  `isDedupBlocked`, `triggerAlarm`, the 1-second polling loop,
  `triggerFromPushData` and `dismissAlarm`,
* the offline cache (src/client/src/lib/offlineStorage.ts):
  `markDismissed` and `clearExpiredDismissals`.

Times are strings in the shapes the source uses: "HH:MM" (or "HH:MM:SS"
in stored rows, which the server truncates with `substring(0, 5)` and the
client compares verbatim), dates "yyyy-MM-dd", weekdays "Sun".."Sat".
Millisecond clocks (`Date.now()`) are `Nat`.
-/

namespace Mypa

/-- JavaScript truthiness of a nullable string field
(`if (alarm.date)`): truthy iff present and non-empty. -/
def optStrTruthy : Option String → Bool
  | none => false
  | some s => s != ""

/-- JavaScript truthiness of `xs && xs.length > 0` for a nullable array. -/
def optListTruthy : Option (List String) → Bool
  | none => false
  | some l => l != []

/-- The current instant as computed by `getCurrentTimeIST` on the server
and by `format(now, ...)` in the client polling loop:
time "HH:MM", weekday "Sun".."Sat", date "yyyy-MM-dd". -/
structure Instant where
  time : String
  day : String
  date : String
deriving DecidableEq, Repr

/-- An alarm row (the fields consulted by the triggering code). -/
structure Alarm where
  id : Nat
  userId : String
  isActive : Bool
  time : String
  date : Option String := none
  days : Option (List String) := none
deriving DecidableEq, Repr

/-- A medicine row (the fields consulted by the triggering code). -/
structure Medicine where
  id : Nat
  userId : String
  isActive : Bool
  times : Option (List String) := none
deriving DecidableEq, Repr

/-- A meeting row (the fields consulted by the triggering code). -/
structure Meeting where
  id : Nat
  userId : String
  enabled : Bool
  time : String
  date : String
deriving DecidableEq, Repr

/-- The per-alarm due test of `checkAndSendAlarms`
(src/unnamed/part_016 lines 40-58): compare `alarm.time.substring(0,5)`
with the current minute; then, if the alarm has a (truthy) `date`, require
the date to match; else if it has a non-empty `days` array, require the
weekday to be in it; else fire on the bare time match. -/
def alarmShouldTrigger (a : Alarm) (now : Instant) : Bool :=
  if a.time.take 5 == now.time then
    if optStrTruthy a.date then
      a.date == some now.date
    else if optListTruthy a.days then
      (a.days.getD []).contains now.day
    else
      true
  else
    false

/-- The server's due decision for an alarm, including the
`where isActive = true` filter of the query feeding the loop. -/
def serverAlarmDue (a : Alarm) (now : Instant) : Bool :=
  a.isActive && alarmShouldTrigger a now

/-- The per-medicine due test of `checkAndSendAlarms`
(src/unnamed/part_016 lines 79-95): for each entry of a non-empty `times`
array, compare its first five characters with the current minute. -/
def medicineShouldTrigger (m : Medicine) (now : Instant) : Bool :=
  if optListTruthy m.times then
    (m.times.getD []).any (fun t => t.take 5 == now.time)
  else
    false

/-- The server's due decision for a medicine, including the
`where isActive = true` filter. -/
def serverMedicineDue (m : Medicine) (now : Instant) : Bool :=
  m.isActive && medicineShouldTrigger m now

/-- The per-meeting due test of `checkAndSendAlarms`
(src/unnamed/part_016 lines 104-106): minute match and exact date match. -/
def meetingShouldTrigger (mt : Meeting) (now : Instant) : Bool :=
  mt.time.take 5 == now.time && mt.date == now.date

/-- The server's due decision for a meeting, including the
`where enabled = true` filter. -/
def serverMeetingDue (mt : Meeting) (now : Instant) : Bool :=
  mt.enabled && meetingShouldTrigger mt now

/-- Modelled from the spec: the section 4.1 case analysis for an alarm, as
the claim words it — a specific-date alarm is due iff the date and the
minute both match; otherwise a recurring alarm is due iff the weekday is
listed and the minute matches; an alarm with neither is due iff the minute
matches. Used only to compare against `alarmShouldTrigger`. -/
def specAlarmDue (a : Alarm) (now : Instant) : Bool :=
  if optStrTruthy a.date then
    (a.date == some now.date) && (a.time.take 5 == now.time)
  else if optListTruthy a.days then
    ((a.days.getD []).contains now.day) && (a.time.take 5 == now.time)
  else
    a.time.take 5 == now.time

/-- The polling loop's `isDayMatch`: `alarm.days?.includes(currentDay)`
(`undefined`, hence falsy, when `days` is absent). -/
def clientDayMatch (days : Option (List String)) (d : String) : Bool :=
  match days with
  | some ds => ds.contains d
  | none => false

/-- The client polling loop's due decision for an alarm
(global-alarm-handler.tsx lines 556-564): requires `isActive`, exact
string equality of `alarm.time` with the current minute, and
`isDayMatch || isDateMatch || (no days and no date)`. -/
def clientAlarmDue (a : Alarm) (now : Instant) : Bool :=
  a.isActive &&
    (a.time == now.time &&
      (clientDayMatch a.days now.day ||
       (a.date == some now.date) ||
       (!optListTruthy a.days && !optStrTruthy a.date)))

/-- The client polling loop's due decision for a medicine
(global-alarm-handler.tsx line 588): `med.times?.includes(currentTime)`;
note there is no `isActive` test on this path. -/
def clientMedicineDue (m : Medicine) (now : Instant) : Bool :=
  match m.times with
  | some ts => ts.contains now.time
  | none => false

/-- The client polling loop's due decision for a meeting
(global-alarm-handler.tsx lines 615-620): requires `enabled`, exact time
match and exact date match. -/
def clientMeetingDue (mt : Meeting) (now : Instant) : Bool :=
  mt.enabled && (mt.time == now.time && mt.date == now.date)

/-- The three schedule-item kinds (the `type` field of a push payload). -/
inductive Kind
  | alarm
  | medicine
  | meeting
deriving DecidableEq, Repr

/-- The string tag of a kind, as used in payloads and dedup keys. -/
def kindStr : Kind → String
  | .alarm => "alarm"
  | .medicine => "medicine"
  | .meeting => "meeting"

/-- A due-event as handed to `sendPushNotification` by the scheduler:
the kind, the owning user, and the item id of the payload. -/
structure DueEvent where
  kind : Kind
  userId : String
  itemId : Nat
deriving DecidableEq, Repr

/-- The durable schedule store read by one scheduler tick. -/
structure ServerStore where
  alarms : List Alarm
  medicines : List Medicine
  meetings : List Meeting
deriving DecidableEq, Repr

/-- Result of one `checkAndSendAlarms` tick: the push payloads that were
handed to `sendPushNotification`, the error logged by the tick-level
`catch` (if any), and the schedule store after the tick. -/
structure TickResult where
  events : List DueEvent
  loggedError : Option String
  store : ServerStore
deriving DecidableEq, Repr

/-- Run one item-evaluation after another, in source order; the first
exception aborts the remaining items (it propagates out of the `for`
loop), but the events already dispatched before it stand. -/
def collectEvents (f : α → Except String (List DueEvent)) :
    List α → List DueEvent × Option String
  | [] => ([], none)
  | x :: rest =>
    match f x with
    | .error e => ([], some e)
    | .ok evs =>
      let r := collectEvents f rest
      (evs ++ r.1, r.2)

/-- One iteration of the alarm loop of `checkAndSendAlarms`: if the alarm
is due, `await sendPushNotification(...)` — which may throw (`send`
models that call's outcome). -/
def evalAlarmItem (send : Kind → Nat → Except String Unit) (now : Instant)
    (a : Alarm) : Except String (List DueEvent) :=
  if alarmShouldTrigger a now then
    (send .alarm a.id).map (fun _ => [⟨.alarm, a.userId, a.id⟩])
  else
    .ok []

/-- The inner loop of the medicine branch: one send per matching entry of
the `times` array. -/
def evalMedicineTimes (send : Kind → Nat → Except String Unit)
    (m : Medicine) (now : Instant) : List String → Except String (List DueEvent)
  | [] => .ok []
  | t :: rest =>
    if t.take 5 == now.time then
      match send .medicine m.id with
      | .error e => .error e
      | .ok _ =>
        (evalMedicineTimes send m now rest).map
          (fun evs => ⟨.medicine, m.userId, m.id⟩ :: evs)
    else
      evalMedicineTimes send m now rest

/-- One iteration of the medicine loop of `checkAndSendAlarms`. -/
def evalMedicineItem (send : Kind → Nat → Except String Unit) (now : Instant)
    (m : Medicine) : Except String (List DueEvent) :=
  if optListTruthy m.times then
    evalMedicineTimes send m now (m.times.getD [])
  else
    .ok []

/-- One iteration of the meeting loop of `checkAndSendAlarms`. -/
def evalMeetingItem (send : Kind → Nat → Except String Unit) (now : Instant)
    (mt : Meeting) : Except String (List DueEvent) :=
  if meetingShouldTrigger mt now then
    (send .meeting mt.id).map (fun _ => [⟨.meeting, mt.userId, mt.id⟩])
  else
    .ok []

/-- One scheduler tick, `checkAndSendAlarms` (src/unnamed/part_016 lines
29-121): active alarms, then active medicines, then enabled meetings are
evaluated sequentially inside a single `try`; the single `catch` logs the
first error and ends the tick. The function itself never throws, and it
performs no writes to the schedule store. -/
def checkAndSendAlarms (send : Kind → Nat → Except String Unit)
    (store : ServerStore) (now : Instant) : TickResult :=
  let r1 := collectEvents (evalAlarmItem send now) (store.alarms.filter (·.isActive))
  match r1.2 with
  | some e => { events := r1.1, loggedError := some e, store := store }
  | none =>
    let r2 := collectEvents (evalMedicineItem send now)
      (store.medicines.filter (·.isActive))
    match r2.2 with
    | some e => { events := r1.1 ++ r2.1, loggedError := some e, store := store }
    | none =>
      let r3 := collectEvents (evalMeetingItem send now)
        (store.meetings.filter (·.enabled))
      { events := r1.1 ++ r2.1 ++ r3.1, loggedError := r3.2, store := store }

/-- The events a fully error-free tick dispatches: every due occurrence of
every active item, in source order. -/
def dueEventsOf (store : ServerStore) (now : Instant) : List DueEvent :=
  (store.alarms.filter (·.isActive)).flatMap
    (fun a => if alarmShouldTrigger a now then [⟨.alarm, a.userId, a.id⟩] else []) ++
  (store.medicines.filter (·.isActive)).flatMap
    (fun m =>
      if optListTruthy m.times then
        (m.times.getD []).flatMap
          (fun t => if t.take 5 == now.time then [⟨.medicine, m.userId, m.id⟩] else [])
      else []) ++
  (store.meetings.filter (·.enabled)).flatMap
    (fun mt => if meetingShouldTrigger mt now then [⟨.meeting, mt.userId, mt.id⟩] else [])

/-- Outcome of one `webPush.sendNotification` attempt: resolved, or
rejected with an optional HTTP status code (`error.statusCode`; `none`
models a transport error such as a timeout, which carries no status). -/
inductive SendOutcome
  | ok
  | fail (statusCode : Option Nat)
deriving DecidableEq, Repr

/-- A `push_subscriptions` row (the fields the dispatcher consults). -/
structure PushSubscription where
  id : Nat
  userId : String
  endpoint : String
deriving DecidableEq, Repr

/-- The `{ success, failed }` counters returned by `sendPushNotification`. -/
structure PushCounts where
  success : Nat
  failed : Nat
deriving DecidableEq, Repr

/-- The permanent-failure test of the dispatcher's catch block:
`error.statusCode === 410 || error.statusCode === 404`. -/
def isPermanentFailure : SendOutcome → Bool
  | .fail (some 410) => true
  | .fail (some 404) => true
  | _ => false

/-- The per-subscription loop of `sendPushNotification` (src/unnamed/
part_013 lines 70-104): iterate over the snapshot of the user's
subscriptions; a resolved send bumps `success`; a rejected send bumps
`failed` and, when the failure is permanent, deletes that row (by id)
from the registry. `attempt` models the outcome of
`webPush.sendNotification` for each subscription. -/
def dispatchLoop (attempt : PushSubscription → SendOutcome) :
    List PushSubscription → List PushSubscription → Nat → Nat →
    PushCounts × List PushSubscription
  | [], reg, s, f => (⟨s, f⟩, reg)
  | sub :: rest, reg, s, f =>
    match attempt sub with
    | .ok => dispatchLoop attempt rest reg (s + 1) f
    | .fail code =>
      let reg' :=
        if isPermanentFailure (.fail code) then
          reg.filter (fun r => r.id != sub.id)
        else reg
      dispatchLoop attempt rest reg' s (f + 1)

/-- `sendPushNotification` (src/unnamed/part_013 lines 50-108): select the
user's subscriptions; if there are none, return `{success: 0, failed: 0}`
at once; otherwise run the delivery loop. Returns the counters and the
registry as it stands afterwards. -/
def sendPushNotification (attempt : PushSubscription → SendOutcome)
    (registry : List PushSubscription) (userId : String) :
    PushCounts × List PushSubscription :=
  let subs := registry.filter (fun s => s.userId == userId)
  if subs.isEmpty then (⟨0, 0⟩, registry)
  else dispatchLoop attempt subs registry 0 0

/-- Lookup in an association list modelling a JS `Map` with string keys
(`lastTriggeredRef.current`). -/
def lookupKey : List (String × Nat) → String → Option Nat
  | [], _ => none
  | (k, v) :: rest, key => if k == key then some v else lookupKey rest key

/-- `Map.set` semantics: replace the binding if the key is present,
append it otherwise. -/
def setKey : List (String × Nat) → String → Nat → List (String × Nat)
  | [], key, v => [(key, v)]
  | (k, w) :: rest, key, v =>
    if k == key then (k, v) :: rest else (k, w) :: setKey rest key v

/-- Lookup in a JS `Map` with numeric keys (the dismissed-at-minute maps). -/
def lookupNS : List (Nat × String) → Nat → Option String
  | [], _ => none
  | (k, v) :: rest, key => if k == key then some v else lookupNS rest key

/-- `Map.set` for the numeric-key maps. -/
def setNS : List (Nat × String) → Nat → String → List (Nat × String)
  | [], key, v => [(key, v)]
  | (k, w) :: rest, key, v =>
    if k == key then (k, v) :: rest else (k, w) :: setNS rest key v

/-- `Map.delete` for the numeric-key maps. -/
def removeNS (m : List (Nat × String)) (key : Nat) : List (Nat × String) :=
  m.filter (fun p => p.1 != key)

/-- A row of the `dismissed` IndexedDB object store
(offlineStorage.ts lines 148-155). -/
structure DismissedRecord where
  key : String
  type : String
  id : Nat
  time : String
  date : String
  dismissedAt : Nat
deriving DecidableEq, Repr

/-- IndexedDB `store.put`: upsert keyed by the record's `key`. -/
def putDismissed (log : List DismissedRecord) (r : DismissedRecord) :
    List DismissedRecord :=
  if log.any (fun x => x.key == r.key) then
    log.map (fun x => if x.key == r.key then r else x)
  else
    log ++ [r]

/-- `markDismissed(type, id, time)` (offlineStorage.ts lines 162-184):
store a record keyed `type-id-time-date` with today's date. -/
def markDismissed (log : List DismissedRecord) (ty : String) (id : Nat)
    (time : String) (today : String) (nowMs : Nat) : List DismissedRecord :=
  putDismissed log
    { key := ty ++ "-" ++ toString id ++ "-" ++ time ++ "-" ++ today
      type := ty, id := id, time := time, date := today, dismissedAt := nowMs }

/-- The fields of `activeAlarmPopup` that drive dismissal behaviour. -/
structure PopupData where
  id : Nat
  kind : Kind
  isDateAlarm : Bool
deriving DecidableEq, Repr

/-- The mutable state of one `GlobalAlarmHandler` instance: the dedup map
`lastTriggeredRef`, the three active-id sets, the three dismissed-at-minute
maps, the current popup, the client's mirror of the schedule store (which
`updateAlarm.mutate` writes through to), and the IndexedDB dismissal log.
`presentations` counts how many presentations have been started
(calls of `setActiveAlarmPopup` with a fresh payload). -/
structure ClientState where
  lastTriggered : List (String × Nat)
  activeAlarms : List Nat
  activeMeds : List Nat
  activeMeetings : List Nat
  dismissedAlarms : List (Nat × String)
  dismissedMeds : List (Nat × String)
  dismissedMeetings : List (Nat × String)
  popup : Option PopupData
  presentations : Nat
  alarmsStore : List Alarm
  meetingsStore : List Meeting
  dismissalLog : List DismissedRecord
deriving DecidableEq, Repr

/-- The deduplication key used by `isDedupBlocked`
(global-alarm-handler.tsx line 287): `` `${type}-${id}` ``. -/
def dedupKey (k : Kind) (id : Nat) : String :=
  kindStr k ++ "-" ++ toString id

/-- The deduplication gate (global-alarm-handler.tsx lines 286-295): if a
truthy last-trigger timestamp for `type-id` lies within the last 60000 ms,
report blocked and leave the map alone; otherwise record the current
timestamp and report not blocked. Returns the decision and the updated
map. -/
def isDedupBlocked (m : List (String × Nat)) (k : Kind) (id : Nat)
    (nowMs : Nat) : Bool × List (String × Nat) :=
  let key := dedupKey k id
  match lookupKey m key with
  | some lastTime =>
    if lastTime != 0 && nowMs - lastTime < 60000 then (true, m)
    else (false, setKey m key nowMs)
  | none => (false, setKey m key nowMs)

/-- `triggerAlarm` (global-alarm-handler.tsx lines 297-374), reduced to
its coordinator effects: consult the dedup gate first and stop there when
blocked; otherwise start a presentation (`setActiveAlarmPopup`). Both the
polling path and the push path (`triggerFromPushData`) enter through this
function. -/
def triggerAlarm (st : ClientState) (k : Kind) (id : Nat)
    (isDateAlarm : Bool) (nowMs : Nat) : ClientState :=
  let g := isDedupBlocked st.lastTriggered k id nowMs
  if g.1 then
    { st with lastTriggered := g.2 }
  else
    { st with
        lastTriggered := g.2
        popup := some { id := id, kind := k, isDateAlarm := isDateAlarm }
        presentations := st.presentations + 1 }

/-- `triggerFromPushData` (global-alarm-handler.tsx lines 376-401), as far
as the coordinator is concerned: build the payload and call `triggerAlarm`
with the kind and id; no `isDateAlarm` flag is passed (so it is `false`)
and no dismissal map is consulted. -/
def pushTrigger (st : ClientState) (k : Kind) (id : Nat) (nowMs : Nat) :
    ClientState :=
  triggerAlarm st k id false nowMs

/-- One alarm's iteration of the 1-second polling loop
(global-alarm-handler.tsx lines 556-585): when due, trigger unless the id
is already in the active set or it was dismissed at this very minute, and
add the id to the active set; when not due, drop a stale active id (only
while no popup is open) and drop a dismissal entry recorded at a
different minute. -/
def pollAlarmStep (st : ClientState) (a : Alarm) (now : Instant)
    (nowMs : Nat) : ClientState :=
  if !a.isActive then st
  else
    let isTimeMatch := a.time == now.time
    let isDayMatch := clientDayMatch a.days now.day
    let isDateMatch := a.date == some now.date
    let wasDismissedThisMinute := lookupNS st.dismissedAlarms a.id == some now.time
    if isTimeMatch &&
        (isDayMatch || isDateMatch ||
          (!optListTruthy a.days && !optStrTruthy a.date)) then
      if !(st.activeAlarms.contains a.id) && !wasDismissedThisMinute then
        let st' := triggerAlarm st .alarm a.id isDateMatch nowMs
        { st' with activeAlarms := a.id :: st'.activeAlarms }
      else st
    else
      let st1 :=
        if st.activeAlarms.contains a.id && st.popup == none then
          { st with activeAlarms := st.activeAlarms.filter (· != a.id) }
        else st
      if (lookupNS st1.dismissedAlarms a.id).isSome &&
          lookupNS st1.dismissedAlarms a.id != some now.time then
        { st1 with dismissedAlarms := removeNS st1.dismissedAlarms a.id }
      else st1

/-- One meeting's iteration of the polling loop
(global-alarm-handler.tsx lines 614-650). -/
def pollMeetingStep (st : ClientState) (mt : Meeting) (now : Instant)
    (nowMs : Nat) : ClientState :=
  if !mt.enabled then st
  else
    let isTimeMatch := mt.time == now.time
    let isDateMatch := mt.date == now.date
    let wasDismissedThisMinute := lookupNS st.dismissedMeetings mt.id == some now.time
    if isTimeMatch && isDateMatch then
      if !(st.activeMeetings.contains mt.id) && !wasDismissedThisMinute then
        let st' := triggerAlarm st .meeting mt.id false nowMs
        { st' with activeMeetings := mt.id :: st'.activeMeetings }
      else st
    else
      let st1 :=
        if st.activeMeetings.contains mt.id && st.popup == none then
          { st with activeMeetings := st.activeMeetings.filter (· != mt.id) }
        else st
      if (lookupNS st1.dismissedMeetings mt.id).isSome &&
          lookupNS st1.dismissedMeetings mt.id != some now.time then
        { st1 with dismissedMeetings := removeNS st1.dismissedMeetings mt.id }
      else st1

/-- `dismissAlarm` (global-alarm-handler.tsx lines 403-484), reduced to
its state effects: with a popup open, remove the id from the matching
active set, record the dismissal minute in the matching map, persist a
`DismissedRecord` via `markDismissed`, and — only for an alarm popup whose
`isDateAlarm` flag is set — write `isActive = false` through to the
schedule store (`updateAlarm.mutate`, a PUT handled by
src/server/routes.ts, whose manual-toggle path stores the flag as given).
The meeting and medicine branches perform no schedule-store write. -/
def dismissAlarm (st : ClientState) (now : Instant) (nowMs : Nat) :
    ClientState :=
  match st.popup with
  | none => st
  | some p =>
    match p.kind with
    | .alarm =>
      { st with
          activeAlarms := st.activeAlarms.filter (· != p.id)
          dismissedAlarms := setNS st.dismissedAlarms p.id now.time
          dismissalLog := markDismissed st.dismissalLog "alarm" p.id now.time now.date nowMs
          alarmsStore :=
            if p.isDateAlarm then
              st.alarmsStore.map
                (fun a => if a.id == p.id then { a with isActive := false } else a)
            else st.alarmsStore
          popup := none }
    | .meeting =>
      { st with
          activeMeetings := st.activeMeetings.filter (· != p.id)
          dismissedMeetings := setNS st.dismissedMeetings p.id now.time
          dismissalLog := markDismissed st.dismissalLog "meeting" p.id now.time now.date nowMs
          popup := none }
    | .medicine =>
      { st with
          activeMeds := st.activeMeds.filter (· != p.id)
          dismissedMeds := setNS st.dismissedMeds p.id now.time
          dismissalLog := markDismissed st.dismissalLog "medicine" p.id now.time now.date nowMs
          popup := none }

/-- The IndexedDB database of offlineStorage.ts: the three mirrored
schedule stores and the dismissal log. -/
structure OfflineDB where
  alarms : List Alarm
  medicines : List Medicine
  meetings : List Meeting
  dismissed : List DismissedRecord
deriving DecidableEq, Repr

/-- `clearExpiredDismissals` (offlineStorage.ts lines 237-264): walk the
`dismissed` store with a cursor and delete every record whose `date`
differs from today; the other object stores are not touched. -/
def clearExpiredDismissals (db : OfflineDB) (today : String) : OfflineDB :=
  { db with dismissed := db.dismissed.filter (fun r => r.date == today) }

/-- Lexicographic comparison of characters, used to order "yyyy-MM-dd"
date strings ("before" in the calendar sense coincides with lexicographic
order in this format). -/
def charListLtb : List Char → List Char → Bool
  | [], [] => false
  | [], _ :: _ => true
  | _ :: _, [] => false
  | c :: cs, d :: ds =>
    if c.toNat < d.toNat then true
    else if d.toNat < c.toNat then false
    else charListLtb cs ds

/-- `a` is strictly before `b`, for "yyyy-MM-dd" date strings. -/
def dateBefore (a b : String) : Bool :=
  charListLtb a.data b.data

/-- A due-event trigger for alarm `a` reaching the coordinator at
millisecond `t` via one of the two input paths: the local polling loop
(`viaPoll = true`) or a push-delivered message handed to
`triggerFromPushData` (`viaPoll = false`). -/
def deliverTrigger (viaPoll : Bool) (a : Alarm) (now : Instant)
    (st : ClientState) (t : Nat) : ClientState :=
  if viaPoll then pollAlarmStep st a now t
  else pushTrigger st .alarm a.id t

/-- The coordinator state at mount: empty maps and sets, no popup, no
presentation started, empty mirrors. -/
def initialClientState : ClientState :=
  { lastTriggered := [], activeAlarms := [], activeMeds := [],
    activeMeetings := [], dismissedAlarms := [], dismissedMeds := [],
    dismissedMeetings := [], popup := none, presentations := 0,
    alarmsStore := [], meetingsStore := [], dismissalLog := [] }

/-- A concrete recurring alarm: Mondays at 07:00. -/
def exAlarmMon : Alarm :=
  { id := 1, userId := "u", isActive := true, time := "07:00",
    date := none, days := some ["Mon"] }

/-- A concrete evaluation instant: Monday 2026-10-12, 07:00. -/
def exNowMon : Instant :=
  { time := "07:00", day := "Mon", date := "2026-10-12" }

/-- A concrete meeting on 2026-10-12 at 10:00. -/
def exMeeting : Meeting :=
  { id := 3, userId := "u", enabled := true, time := "10:00",
    date := "2026-10-12" }

/-- A concrete evaluation instant: Monday 2026-10-12, 10:00. -/
def exNowMeeting : Instant :=
  { time := "10:00", day := "Mon", date := "2026-10-12" }

/-! ## Helper lemmas -/

theorem clientDayMatch_eq_false_of_not_truthy (days : Option (List String))
    (d : String) (h : optListTruthy days = false) :
    clientDayMatch days d = false := by
  cases days with
  | none => rfl
  | some ds =>
    simp only [optListTruthy, bne_eq_false_iff_eq] at h
    subst h
    rfl

theorem clientDayMatch_eq_getD (days : Option (List String)) (d : String)
    (h : optListTruthy days = true) :
    clientDayMatch days d = (days.getD []).contains d := by
  cases days with
  | none => simp [optListTruthy] at h
  | some ds => rfl

theorem dateMatch_eq_false_of_not_truthy (date : Option String)
    (d : String) (hd : optStrTruthy date = false) (hne : d ≠ "") :
    (date == some d) = false := by
  cases date with
  | none => rfl
  | some s =>
    simp only [optStrTruthy, bne_eq_false_iff_eq] at hd
    subst hd
    simp only [beq_eq_false_iff_ne, ne_eq, Option.some.injEq]
    exact fun h => hne h.symm

/-! ## C1: the due decision, server vs spec case analysis vs client poll -/

/-- **C1 (counterexample).** For an alarm carrying both a `specificDate`
and a non-empty `recurringDays` (date 2026-10-13, days [Tue]), evaluated
on Tuesday 2026-10-14 at 07:00, the server scheduler is not due (the
`date` field takes priority and does not match) and the spec's §4.1 case
analysis agrees, but the client polling loop is due (its `isDayMatch ||
isDateMatch` disjunction accepts the weekday match) — so the claim that
the client makes the same due decision as the server for every item and
instant is false. -/
theorem c1_cx_client_server_disagree :
    serverAlarmDue
      { id := 1, userId := "u", isActive := true, time := "07:00",
        date := some "2026-10-13", days := some ["Tue"] }
      { time := "07:00", day := "Tue", date := "2026-10-14" } = false ∧
    specAlarmDue
      { id := 1, userId := "u", isActive := true, time := "07:00",
        date := some "2026-10-13", days := some ["Tue"] }
      { time := "07:00", day := "Tue", date := "2026-10-14" } = false ∧
    clientAlarmDue
      { id := 1, userId := "u", isActive := true, time := "07:00",
        date := some "2026-10-13", days := some ["Tue"] }
      { time := "07:00", day := "Tue", date := "2026-10-14" } = true := by
  decide

/-- **C1 (amended).** The server scheduler's due decision matches the
§4.1 case analysis exactly (for every alarm and instant, with the date
taking priority over the weekday list), and the client polling loop makes
the same due decision as the server for every alarm that does not carry
both a date and a non-empty day list (with times stored at HH:MM
granularity), for every active medicine, and for every meeting. -/
theorem c1_due_decision_agreement
    (a : Alarm) (m : Medicine) (mt : Meeting) (now : Instant)
    (hATime : a.time.take 5 = a.time)
    (hExcl : ¬(optStrTruthy a.date = true ∧ optListTruthy a.days = true))
    (hNowDate : now.date ≠ "")
    (hMAct : m.isActive = true)
    (hMTimes : ∀ t ∈ m.times.getD [], t.take 5 = t)
    (hMtTime : mt.time.take 5 = mt.time) :
    (∀ a' n', alarmShouldTrigger a' n' = specAlarmDue a' n') ∧
    clientAlarmDue a now = serverAlarmDue a now ∧
    clientMedicineDue m now = serverMedicineDue m now ∧
    clientMeetingDue mt now = serverMeetingDue mt now := by
  refine ⟨?_, ?_, ?_, ?_⟩
  · intro a' n'
    unfold alarmShouldTrigger specAlarmDue
    cases h1 : (a'.time.take 5 == n'.time) <;>
      cases h2 : optStrTruthy a'.date <;>
        cases h3 : optListTruthy a'.days <;>
          simp [h1, h2, h3]
  · unfold clientAlarmDue serverAlarmDue alarmShouldTrigger
    rw [hATime]
    cases hAct : a.isActive
    · simp
    · simp only [Bool.true_and]
      cases h1 : (a.time == now.time)
      · simp
      · cases h2 : optStrTruthy a.date <;> cases h3 : optListTruthy a.days
        · rw [clientDayMatch_eq_false_of_not_truthy a.days now.day h3,
            dateMatch_eq_false_of_not_truthy a.date now.date h2 hNowDate]
          simp [h2, h3]
        · rw [clientDayMatch_eq_getD a.days now.day h3,
            dateMatch_eq_false_of_not_truthy a.date now.date h2 hNowDate]
          simp [h2, h3]
        · rw [clientDayMatch_eq_false_of_not_truthy a.days now.day h3]
          simp [h2, h3]
        · exact absurd ⟨h2, h3⟩ hExcl
  · unfold clientMedicineDue serverMedicineDue medicineShouldTrigger
    rw [hMAct]
    cases hts : m.times with
    | none => rfl
    | some ts =>
      rw [hts] at hMTimes
      simp only [Option.getD_some] at hMTimes
      cases hE : ts with
      | nil => simp [optListTruthy]
      | cons t rest =>
        rw [hE] at hMTimes
        simp only [optListTruthy, Bool.true_and]
        rw [if_pos (by simp)]
        rw [Bool.eq_iff_iff]
        simp only [List.contains_eq_any_beq, List.any_eq_true, beq_iff_eq]
        constructor
        · rintro ⟨x, hx, hxe⟩
          exact ⟨x, hx, by rw [hMTimes x hx, hxe]⟩
        · rintro ⟨x, hx, hxe⟩
          exact ⟨x, hx, by rw [← hMTimes x hx, hxe]⟩
  · unfold clientMeetingDue serverMeetingDue meetingShouldTrigger
    rw [hMtTime]

/-- **C1 (witness).** The amended agreement theorem applied to a concrete
recurring Monday 07:00 alarm, a medicine dosed at 08:00, and a meeting at
09:00 on 2026-10-12, all evaluated on Monday 2026-10-12 at 07:00. -/
theorem c1_due_decision_agreement_witness :
    (∀ a' n', alarmShouldTrigger a' n' = specAlarmDue a' n') ∧
    clientAlarmDue
      { id := 1, userId := "u", isActive := true, time := "07:00",
        date := none, days := some ["Mon"] }
      { time := "07:00", day := "Mon", date := "2026-10-12" } =
    serverAlarmDue
      { id := 1, userId := "u", isActive := true, time := "07:00",
        date := none, days := some ["Mon"] }
      { time := "07:00", day := "Mon", date := "2026-10-12" } ∧
    clientMedicineDue
      { id := 2, userId := "u", isActive := true, times := some ["08:00"] }
      { time := "07:00", day := "Mon", date := "2026-10-12" } =
    serverMedicineDue
      { id := 2, userId := "u", isActive := true, times := some ["08:00"] }
      { time := "07:00", day := "Mon", date := "2026-10-12" } ∧
    clientMeetingDue
      { id := 3, userId := "u", enabled := true, time := "09:00",
        date := "2026-10-12" }
      { time := "07:00", day := "Mon", date := "2026-10-12" } =
    serverMeetingDue
      { id := 3, userId := "u", enabled := true, time := "09:00",
        date := "2026-10-12" }
      { time := "07:00", day := "Mon", date := "2026-10-12" } :=
  c1_due_decision_agreement
    { id := 1, userId := "u", isActive := true, time := "07:00",
      date := none, days := some ["Mon"] }
    { id := 2, userId := "u", isActive := true, times := some ["08:00"] }
    { id := 3, userId := "u", enabled := true, time := "09:00",
      date := "2026-10-12" }
    { time := "07:00", day := "Mon", date := "2026-10-12" }
    (by decide) (by decide) (by decide) (by decide) (by decide) (by decide)

theorem lookupKey_setKey_self (m : List (String × Nat)) (k : String) (v : Nat) :
    lookupKey (setKey m k v) k = some v := by
  induction m with
  | nil => simp [setKey, lookupKey]
  | cons p rest ih =>
    obtain ⟨pk, pv⟩ := p
    simp only [setKey]
    cases h : (pk == k) <;> simp [lookupKey, h, ih]

/-! ## C2: one presentation per occurrence across the two input paths -/

/-- **C2.** From a state with no dedup entry for the alarm's occurrence
key, two due-event triggers for the same occurrence arriving within
60 seconds of each other — via polling, via push delivery, or one of each
in either order — start exactly one presentation: the first trigger
presents, and the later trigger leaves the presentation state (popup and
presentation count) untouched. -/
theorem c2_dedup_one_presentation
    (st : ClientState) (a : Alarm) (now : Instant) (p1 p2 : Bool) (t1 t2 : Nat)
    (hfresh : lookupKey st.lastTriggered (dedupKey .alarm a.id) = none)
    (hact : st.activeAlarms.contains a.id = false)
    (hdis : (lookupNS st.dismissedAlarms a.id == some now.time) = false)
    (hdue : clientAlarmDue a now = true)
    (ht1 : 0 < t1) (hwin : t2 - t1 < 60000) :
    (deliverTrigger p2 a now (deliverTrigger p1 a now st t1) t2).presentations
      = st.presentations + 1 ∧
    (deliverTrigger p2 a now (deliverTrigger p1 a now st t1) t2).popup
      = (deliverTrigger p1 a now st t1).popup ∧
    (deliverTrigger p1 a now st t1).popup ≠ none := by
  unfold clientAlarmDue at hdue
  rw [Bool.and_eq_true] at hdue
  obtain ⟨hA, hinner⟩ := hdue
  have h0 : t1 ≠ 0 := Nat.pos_iff_ne_zero.mp ht1
  have hfire : ∀ fl, triggerAlarm st .alarm a.id fl t1 =
      { st with
          lastTriggered := setKey st.lastTriggered (dedupKey .alarm a.id) t1
          popup := some { id := a.id, kind := .alarm, isDateAlarm := fl }
          presentations := st.presentations + 1 } := by
    intro fl
    unfold triggerAlarm isDedupBlocked
    simp [hfresh]
  have hblock : ∀ (st' : ClientState) (fl : Bool),
      lookupKey st'.lastTriggered (dedupKey .alarm a.id) = some t1 →
      triggerAlarm st' .alarm a.id fl t2 = st' := by
    intro st' fl hlk
    unfold triggerAlarm isDedupBlocked
    simp [hlk, h0, hwin]
  have hpollgo : ∀ (st' : ClientState) (t : Nat),
      st'.activeAlarms.contains a.id = false →
      (lookupNS st'.dismissedAlarms a.id == some now.time) = false →
      pollAlarmStep st' a now t =
        { triggerAlarm st' .alarm a.id (a.date == some now.date) t with
            activeAlarms :=
              a.id :: (triggerAlarm st' .alarm a.id (a.date == some now.date) t).activeAlarms } := by
    intro st' t hc hd
    unfold pollAlarmStep
    rw [hA]
    simp only [Bool.not_true, Bool.false_eq_true, if_false, hinner, if_true, hc, hd,
      Bool.not_false, Bool.and_self]
  have hpollskip : ∀ (st' : ClientState) (t : Nat),
      st'.activeAlarms.contains a.id = true →
      pollAlarmStep st' a now t = st' := by
    intro st' t hc
    unfold pollAlarmStep
    rw [hA]
    simp only [Bool.not_true, Bool.false_eq_true, if_false, hinner, if_true, hc,
      Bool.false_and, Bool.and_false]
  cases p1 <;> cases p2
  · -- push then push
    simp only [deliverTrigger, Bool.false_eq_true, if_false, pushTrigger]
    rw [hfire false, hblock _ false (by simp [lookupKey_setKey_self])]
    simp
  · -- push then poll
    simp only [deliverTrigger, Bool.false_eq_true, if_false, if_true, pushTrigger]
    rw [hfire false]
    rw [hpollgo _ t2 (by simpa using hact) (by simpa using hdis)]
    rw [hblock _ (a.date == some now.date) (by simp [lookupKey_setKey_self])]
    simp
  · -- poll then push
    simp only [deliverTrigger, Bool.false_eq_true, if_false, if_true, pushTrigger]
    rw [hpollgo st t1 hact hdis, hfire (a.date == some now.date)]
    rw [hblock _ false (by simp [lookupKey_setKey_self])]
    simp
  · -- poll then poll
    simp only [deliverTrigger, if_true]
    rw [hpollgo st t1 hact hdis, hfire (a.date == some now.date)]
    rw [hpollskip _ t2 (by simp)]
    simp

/-- **C2 (witness).** The dedup theorem applied to the Monday 07:00 alarm
from a fresh coordinator state: a polling trigger at millisecond 1000
followed by a push trigger at millisecond 50000 yields exactly one
presentation. -/
theorem c2_dedup_one_presentation_witness :
    (deliverTrigger false exAlarmMon exNowMon
        (deliverTrigger true exAlarmMon exNowMon initialClientState 1000) 50000).presentations
      = initialClientState.presentations + 1 ∧
    (deliverTrigger false exAlarmMon exNowMon
        (deliverTrigger true exAlarmMon exNowMon initialClientState 1000) 50000).popup
      = (deliverTrigger true exAlarmMon exNowMon initialClientState 1000).popup ∧
    (deliverTrigger true exAlarmMon exNowMon initialClientState 1000).popup ≠ none :=
  c2_dedup_one_presentation initialClientState exAlarmMon exNowMon true false 1000 50000
    (by decide) (by decide) (by decide) (by decide) (by decide) (by decide)

/-! ## C3: the scheduler does not deactivate one-shot items -/

/-- **C3 (counterexample).** A specific-date alarm (2026-10-12 at 06:30)
fires on its due minute, but after the tick it is still active in the
schedule store — `checkAndSendAlarms` performs no write — and a second
tick at the same instant dispatches it again. This refutes the claim that
the scheduler flips the item's active flag after handing over the
due-event. -/
theorem c3_cx_one_shot_stays_active :
    (checkAndSendAlarms (fun _ _ => Except.ok ())
      { alarms := [{ id := 4, userId := "u", isActive := true, time := "06:30",
                     date := some "2026-10-12", days := none }],
        medicines := [], meetings := [] }
      { time := "06:30", day := "Mon", date := "2026-10-12" }).events
      = [{ kind := .alarm, userId := "u", itemId := 4 }] ∧
    (checkAndSendAlarms (fun _ _ => Except.ok ())
      { alarms := [{ id := 4, userId := "u", isActive := true, time := "06:30",
                     date := some "2026-10-12", days := none }],
        medicines := [], meetings := [] }
      { time := "06:30", day := "Mon", date := "2026-10-12" }).store.alarms
      = [{ id := 4, userId := "u", isActive := true, time := "06:30",
           date := some "2026-10-12", days := none }] ∧
    (checkAndSendAlarms (fun _ _ => Except.ok ())
      (checkAndSendAlarms (fun _ _ => Except.ok ())
        { alarms := [{ id := 4, userId := "u", isActive := true, time := "06:30",
                       date := some "2026-10-12", days := none }],
          medicines := [], meetings := [] }
        { time := "06:30", day := "Mon", date := "2026-10-12" }).store
      { time := "06:30", day := "Mon", date := "2026-10-12" }).events
      = [{ kind := .alarm, userId := "u", itemId := 4 }] := by
  decide

/-- **C3 (amended).** `checkAndSendAlarms` never modifies the Schedule
Store: after any tick the store is exactly what it was before, so a due
one-shot item (specific-date alarm or meeting) remains active, and a
second tick at the same instant reproduces the same dispatches. The only
deactivation of one-shot items in the system happens client-side, on
dismissal of a date alarm. -/
theorem c3_tick_leaves_store_unchanged
    (send : Kind → Nat → Except String Unit) (store : ServerStore)
    (now : Instant) :
    (checkAndSendAlarms send store now).store = store ∧
    checkAndSendAlarms send (checkAndSendAlarms send store now).store now
      = checkAndSendAlarms send store now := by
  have h : (checkAndSendAlarms send store now).store = store := by
    simp only [checkAndSendAlarms]
    repeat' split
    all_goals rfl
  exact ⟨h, by rw [h]⟩

/-! ## C6: error isolation within a tick -/

theorem collectEvents_ok {α : Type} (f : α → Except String (List DueEvent))
    (g : α → List DueEvent) (xs : List α) (h : ∀ x ∈ xs, f x = .ok (g x)) :
    collectEvents f xs = (xs.flatMap g, none) := by
  induction xs with
  | nil => rfl
  | cons x rest ih =>
    have hx := h x (List.mem_cons_self x rest)
    have ht : ∀ y ∈ rest, f y = .ok (g y) :=
      fun y hy => h y (List.mem_cons_of_mem x hy)
    simp [collectEvents, hx, ih ht]

theorem collectEvents_error {α : Type} (f : α → Except String (List DueEvent))
    (g : α → List DueEvent) (pre : List α) (x : α) (post : List α) (e : String)
    (hpre : ∀ y ∈ pre, f y = .ok (g y)) (hx : f x = .error e) :
    collectEvents f (pre ++ x :: post) = (pre.flatMap g, some e) := by
  induction pre with
  | nil => simp [collectEvents, hx]
  | cons y rest ih =>
    have hy := hpre y (List.mem_cons_self y rest)
    have ht : ∀ z ∈ rest, f z = .ok (g z) :=
      fun z hz => hpre z (List.mem_cons_of_mem y hz)
    simp [collectEvents, hy, ih ht]

/-- **C6 (counterexample).** With two active alarms and one active
medicine all due at 07:00, a failure dispatching the *first* alarm aborts
the whole tick: the second alarm and the medicine are due but produce no
event at all (the tick returns zero events and the logged error). This
refutes the claim that every remaining item of the tick is still
evaluated after one item's failure. -/
theorem c6_cx_error_aborts_remaining_items :
    alarmShouldTrigger
      { id := 2, userId := "u", isActive := true, time := "07:00",
        date := none, days := none }
      { time := "07:00", day := "Mon", date := "2026-10-12" } = true ∧
    serverMedicineDue
      { id := 9, userId := "u", isActive := true, times := some ["07:00"] }
      { time := "07:00", day := "Mon", date := "2026-10-12" } = true ∧
    checkAndSendAlarms
      (fun k id => match k, id with
        | Kind.alarm, 1 => Except.error "boom"
        | _, _ => Except.ok ())
      { alarms := [{ id := 1, userId := "u", isActive := true, time := "07:00",
                     date := none, days := none },
                   { id := 2, userId := "u", isActive := true, time := "07:00",
                     date := none, days := none }],
        medicines := [{ id := 9, userId := "u", isActive := true,
                        times := some ["07:00"] }],
        meetings := [] }
      { time := "07:00", day := "Mon", date := "2026-10-12" }
      = { events := [],
          loggedError := some "boom",
          store :=
            { alarms := [{ id := 1, userId := "u", isActive := true, time := "07:00",
                           date := none, days := none },
                         { id := 2, userId := "u", isActive := true, time := "07:00",
                           date := none, days := none }],
              medicines := [{ id := 9, userId := "u", isActive := true,
                              times := some ["07:00"] }],
              meetings := [] } } := by
  decide

/-- **C6 (amended).** An error raised while evaluating or dispatching one
schedule item is caught at the tick level, not at the item level: the tick
function still returns (the scheduler survives, and the error is logged),
the items dispatched before the failing one stand, but every item after
the failing one in that tick — including all medicines and meetings — is
skipped, not evaluated. -/
theorem c6_item_error_aborts_tick
    (send : Kind → Nat → Except String Unit) (store : ServerStore)
    (now : Instant) (pre post : List Alarm) (a : Alarm) (e : String)
    (hsplit : store.alarms.filter (·.isActive) = pre ++ a :: post)
    (hpre : ∀ x ∈ pre, send .alarm x.id = .ok ())
    (hadue : alarmShouldTrigger a now = true)
    (hasend : send .alarm a.id = .error e) :
    checkAndSendAlarms send store now =
      { events := pre.flatMap
          (fun x => if alarmShouldTrigger x now then
            [{ kind := .alarm, userId := x.userId, itemId := x.id }] else []),
        loggedError := some e,
        store := store } := by
  have hItem : ∀ x ∈ pre, evalAlarmItem send now x =
      .ok (if alarmShouldTrigger x now then
        [{ kind := .alarm, userId := x.userId, itemId := x.id }] else []) := by
    intro x hx
    unfold evalAlarmItem
    cases hT : alarmShouldTrigger x now
    · simp [hT]
    · simp [hT, hpre x hx, Except.map]
  have hErr : evalAlarmItem send now a = .error e := by
    unfold evalAlarmItem
    simp [hadue, hasend, Except.map]
  simp only [checkAndSendAlarms]
  rw [hsplit, collectEvents_error _ _ pre a post e hItem hErr]

/-- **C6 (witness).** The amended theorem at a concrete tick: alarm 1
dispatches, alarm 2 fails with "boom", and the due medicine 9 is skipped. -/
theorem c6_item_error_aborts_tick_witness :
    checkAndSendAlarms
      (fun k id => match k, id with
        | Kind.alarm, 2 => Except.error "boom"
        | _, _ => Except.ok ())
      { alarms := [{ id := 1, userId := "u", isActive := true, time := "07:00",
                     date := none, days := none },
                   { id := 2, userId := "u", isActive := true, time := "07:00",
                     date := none, days := none }],
        medicines := [{ id := 9, userId := "u", isActive := true,
                        times := some ["07:00"] }],
        meetings := [] }
      { time := "07:00", day := "Mon", date := "2026-10-12" }
      = { events := [{ kind := .alarm, userId := "u", itemId := 1 }],
          loggedError := some "boom",
          store :=
            { alarms := [{ id := 1, userId := "u", isActive := true, time := "07:00",
                           date := none, days := none },
                         { id := 2, userId := "u", isActive := true, time := "07:00",
                           date := none, days := none }],
              medicines := [{ id := 9, userId := "u", isActive := true,
                              times := some ["07:00"] }],
              meetings := [] } } :=
  c6_item_error_aborts_tick
    (fun k id => match k, id with
      | Kind.alarm, 2 => Except.error "boom"
      | _, _ => Except.ok ())
    { alarms := [{ id := 1, userId := "u", isActive := true, time := "07:00",
                   date := none, days := none },
                 { id := 2, userId := "u", isActive := true, time := "07:00",
                   date := none, days := none }],
      medicines := [{ id := 9, userId := "u", isActive := true,
                      times := some ["07:00"] }],
      meetings := [] }
    { time := "07:00", day := "Mon", date := "2026-10-12" }
    [{ id := 1, userId := "u", isActive := true, time := "07:00",
       date := none, days := none }]
    []
    { id := 2, userId := "u", isActive := true, time := "07:00",
      date := none, days := none }
    "boom"
    (by decide)
    (by intro x hx
        rcases List.mem_singleton.mp hx with rfl
        rfl)
    (by decide) rfl

/-! ## C4 and C10: dispatcher counts and registry pruning -/

theorem dispatchLoop_counts (attempt : PushSubscription → SendOutcome)
    (subs : List PushSubscription) :
    ∀ (reg : List PushSubscription) (s f : Nat),
    (dispatchLoop attempt subs reg s f).1 =
      { success := s + (subs.filter (fun x => attempt x == .ok)).length,
        failed := f + (subs.filter (fun x => attempt x != .ok)).length } := by
  induction subs with
  | nil => intro reg s f; simp [dispatchLoop]
  | cons sub rest ih =>
    intro reg s f
    cases hA : attempt sub with
    | ok =>
      simp only [dispatchLoop, hA]
      rw [ih]
      simp [List.filter_cons, hA]
      omega
    | fail code =>
      simp only [dispatchLoop, hA]
      split
      all_goals
        rw [ih]
        simp [List.filter_cons, hA]
        omega

theorem dispatchLoop_registry (attempt : PushSubscription → SendOutcome)
    (subs : List PushSubscription) :
    ∀ (reg : List PushSubscription) (s f : Nat),
    (dispatchLoop attempt subs reg s f).2 =
      reg.filter (fun r =>
        !(subs.any (fun x => isPermanentFailure (attempt x) && r.id == x.id))) := by
  induction subs with
  | nil => intro reg s f; simp [dispatchLoop]
  | cons sub rest ih =>
    intro reg s f
    cases hA : attempt sub with
    | ok =>
      simp only [dispatchLoop, hA]
      rw [ih]
      refine List.filter_congr ?_
      intro r _
      simp [List.any_cons, hA, isPermanentFailure]
    | fail code =>
      simp only [dispatchLoop, hA]
      cases hP : isPermanentFailure (SendOutcome.fail code)
      · rw [if_neg (by simp [hP])]
        rw [ih]
        refine List.filter_congr ?_
        intro r _
        simp [List.any_cons, hA, hP]
      · rw [if_pos (by simp [hP])]
        rw [ih, List.filter_filter]
        refine List.filter_congr ?_
        intro r _
        simp only [List.any_cons, hA, hP, Bool.true_and, Bool.not_or, bne]
        rw [Bool.and_comm]

/-- **C4.** For every user and registry, `sendPushNotification` attempts
delivery to each of the user's endpoints exactly once
(`success + failed` equals the number of endpoints), returns `success`
equal to the number of resolved sends and `failed` equal to the number of
rejected sends, and afterwards the registry retains exactly the rows not
matched (by id) to a permanent failure (status 410 or 404) — transiently
failing endpoints stay registered. On the concrete registry
[A(ok), B(gone), C(timeout)] it returns {success: 1, failed: 2} and
leaves exactly [A, C]. -/
theorem c4_dispatch_counts_and_pruning
    (attempt : PushSubscription → SendOutcome)
    (registry : List PushSubscription) (uid : String) :
    ((sendPushNotification attempt registry uid).1.success =
      ((registry.filter (fun s => s.userId == uid)).filter
        (fun x => attempt x == .ok)).length ∧
     (sendPushNotification attempt registry uid).1.failed =
      ((registry.filter (fun s => s.userId == uid)).filter
        (fun x => attempt x != .ok)).length ∧
     (sendPushNotification attempt registry uid).1.success +
       (sendPushNotification attempt registry uid).1.failed =
      (registry.filter (fun s => s.userId == uid)).length ∧
     (sendPushNotification attempt registry uid).2 =
      registry.filter (fun r =>
        !((registry.filter (fun s => s.userId == uid)).any
          (fun x => isPermanentFailure (attempt x) && r.id == x.id)))) ∧
    sendPushNotification
      (fun s => if s.id == 2 then .fail (some 410)
                else if s.id == 3 then .fail none else .ok)
      [{ id := 1, userId := "u", endpoint := "epA" },
       { id := 2, userId := "u", endpoint := "epB" },
       { id := 3, userId := "u", endpoint := "epC" }] "u"
      = ({ success := 1, failed := 2 },
         [{ id := 1, userId := "u", endpoint := "epA" },
          { id := 3, userId := "u", endpoint := "epC" }]) := by
  refine ⟨?_, by decide⟩
  unfold sendPushNotification
  cases hE : (registry.filter (fun s => s.userId == uid)).isEmpty
  · simp only [hE, Bool.false_eq_true, if_false]
    rw [List.isEmpty_eq_false_iff_exists_mem] at hE
    refine ⟨?_, ?_, ?_, ?_⟩
    · rw [dispatchLoop_counts]
      simp
    · rw [dispatchLoop_counts]
      simp
    · rw [dispatchLoop_counts]
      simp only [Nat.zero_add]
      rw [← List.countP_eq_length_filter, ← List.countP_eq_length_filter,
        List.length_eq_countP_add_countP (fun x => attempt x == SendOutcome.ok)]
      congr 1
      refine List.countP_congr ?_
      intro x _
      simp [bne]
    · rw [dispatchLoop_registry]
  · rw [List.isEmpty_iff] at hE
    simp [hE]

/-- **C10.** Dispatching a due-event for a user with no registered device
endpoints returns {success: 0, failed: 0}, leaves the registry exactly as
it was, and performs no delivery attempt at all: the result does not
depend on the delivery transport's behaviour. -/
theorem c10_dispatch_no_endpoints
    (attempt attempt2 : PushSubscription → SendOutcome)
    (registry : List PushSubscription) (uid : String)
    (h : registry.filter (fun s => s.userId == uid) = []) :
    sendPushNotification attempt registry uid = ({ success := 0, failed := 0 }, registry) ∧
    sendPushNotification attempt registry uid = sendPushNotification attempt2 registry uid := by
  have hgo : ∀ att : PushSubscription → SendOutcome,
      sendPushNotification att registry uid = ({ success := 0, failed := 0 }, registry) := by
    intro att
    unfold sendPushNotification
    simp [h]
  rw [hgo attempt, hgo attempt2]
  exact ⟨rfl, rfl⟩

/-- **C10 (witness).** The no-endpoint theorem at a registry holding only
another user's endpoint, under two transports that would behave
differently if consulted. -/
theorem c10_dispatch_no_endpoints_witness :
    sendPushNotification (fun _ => SendOutcome.ok)
      [{ id := 1, userId := "v", endpoint := "ep" }] "u"
      = ({ success := 0, failed := 0 },
         [{ id := 1, userId := "v", endpoint := "ep" }]) ∧
    sendPushNotification (fun _ => SendOutcome.ok)
      [{ id := 1, userId := "v", endpoint := "ep" }] "u"
      = sendPushNotification (fun _ => SendOutcome.fail (some 410))
        [{ id := 1, userId := "v", endpoint := "ep" }] "u" :=
  c10_dispatch_no_endpoints (fun _ => SendOutcome.ok)
    (fun _ => SendOutcome.fail (some 410))
    [{ id := 1, userId := "v", endpoint := "ep" }] "u" (by decide)

/-! ## C5: what dismissal deactivates -/

theorem lookupNS_setNS_self (m : List (Nat × String)) (k : Nat) (v : String) :
    lookupNS (setNS m k v) k = some v := by
  induction m with
  | nil => simp [setNS, lookupNS]
  | cons p rest ih =>
    obtain ⟨pk, pv⟩ := p
    simp only [setNS]
    cases h : (pk == k) <;> simp [lookupNS, h, ih]

/-- **C5 (counterexample).** Dismissing a presented meeting does not
touch the schedule store: after `dismissAlarm` on the meeting popup, the
meeting row still has `enabled = true`, and both the server evaluator and
the client evaluator still consider it due at its date and time — so the
meeting is not "set to false via the Schedule Store" and nothing prevents
it from being presented again. -/
theorem c5_cx_meeting_dismiss_keeps_enabled :
    (pollMeetingStep { initialClientState with meetingsStore := [exMeeting] }
        exMeeting exNowMeeting 1000).popup
      = some { id := 3, kind := .meeting, isDateAlarm := false } ∧
    (dismissAlarm
        (pollMeetingStep { initialClientState with meetingsStore := [exMeeting] }
          exMeeting exNowMeeting 1000)
        exNowMeeting 2000).meetingsStore = [exMeeting] ∧
    exMeeting.enabled = true ∧
    serverMeetingDue exMeeting exNowMeeting = true ∧
    clientMeetingDue exMeeting exNowMeeting = true := by
  decide

/-- **C5 (amended).** When the dismissed popup is an alarm carrying the
date-alarm flag (set by the polling path on a date match), `dismissAlarm`
clears the popup, records the dismissal minute, and writes
`isActive = false` through to every schedule-store row with that id —
after which neither the server evaluator nor the client evaluator ever
considers the alarm due again, at any instant. Meetings (and popups
without the date-alarm flag, such as push-delivered ones) receive no such
schedule-store write. -/
theorem c5_date_alarm_deactivated_on_dismiss
    (st : ClientState) (now : Instant) (nowMs : Nat) (p : PopupData)
    (hp : st.popup = some p) (hk : p.kind = Kind.alarm)
    (hd : p.isDateAlarm = true) :
    (dismissAlarm st now nowMs).popup = none ∧
    lookupNS (dismissAlarm st now nowMs).dismissedAlarms p.id = some now.time ∧
    (∀ a ∈ (dismissAlarm st now nowMs).alarmsStore, a.id = p.id →
      a.isActive = false ∧
        ∀ n, serverAlarmDue a n = false ∧ clientAlarmDue a n = false) := by
  obtain ⟨pid, pk, pda⟩ := p
  simp only at hk hd
  subst hk
  subst hd
  unfold dismissAlarm
  rw [hp]
  refine ⟨rfl, lookupNS_setNS_self _ _ _, ?_⟩
  intro a ha hid
  simp only [if_true, List.mem_map] at ha
  obtain ⟨b, hb, hba⟩ := ha
  have hA : a.isActive = false := by
    cases hEq : (b.id == pid)
    · rw [hEq] at hba
      simp only [Bool.false_eq_true, if_false] at hba
      subst hba
      rw [beq_eq_false_iff_ne] at hEq
      exact absurd hid hEq
    · rw [hEq] at hba
      simp only [if_true] at hba
      subst hba
      rfl
  refine ⟨hA, fun n => ?_⟩
  unfold serverAlarmDue clientAlarmDue
  rw [hA]
  simp

/-- **C5 (witness).** The deactivation theorem at a concrete state: a
popup for date alarm 4 (2026-10-12 at 06:30), whose store row is flipped
inactive on dismissal. -/
theorem c5_date_alarm_deactivated_on_dismiss_witness :
    (dismissAlarm
      { initialClientState with
          popup := some { id := 4, kind := .alarm, isDateAlarm := true }
          alarmsStore := [{ id := 4, userId := "u", isActive := true, time := "06:30",
                            date := some "2026-10-12", days := none }] }
      exNowMon 2000).popup = none ∧
    lookupNS (dismissAlarm
      { initialClientState with
          popup := some { id := 4, kind := .alarm, isDateAlarm := true }
          alarmsStore := [{ id := 4, userId := "u", isActive := true, time := "06:30",
                            date := some "2026-10-12", days := none }] }
      exNowMon 2000).dismissedAlarms 4 = some exNowMon.time ∧
    (∀ a ∈ (dismissAlarm
      { initialClientState with
          popup := some { id := 4, kind := .alarm, isDateAlarm := true }
          alarmsStore := [{ id := 4, userId := "u", isActive := true, time := "06:30",
                            date := some "2026-10-12", days := none }] }
      exNowMon 2000).alarmsStore, a.id = 4 →
      a.isActive = false ∧
        ∀ n, serverAlarmDue a n = false ∧ clientAlarmDue a n = false) :=
  c5_date_alarm_deactivated_on_dismiss
    { initialClientState with
        popup := some { id := 4, kind := .alarm, isDateAlarm := true }
        alarmsStore := [{ id := 4, userId := "u", isActive := true, time := "06:30",
                          date := some "2026-10-12", days := none }] }
    exNowMon 2000 { id := 4, kind := .alarm, isDateAlarm := true }
    rfl rfl rfl

/-! ## C7: the composition of the deduplication key -/

/-- **C7 (counterexample).** The dedup key the code computes for alarm 7
is "alarm-7" — kind and id only, with no time-of-day component — which
differs from the claimed "alarm-7-07:00"; consequently two triggers for
*different* occurrences of alarm 7 (consecutive firing minutes, 40 s
apart) collide on the same key and the second is discarded. -/
theorem c7_cx_key_has_no_time_component :
    dedupKey .alarm 7 = "alarm-7" ∧
    ("alarm-7" : String) ≠ "alarm-7-07:00" ∧
    (pushTrigger (pushTrigger initialClientState .alarm 7 100000)
      .alarm 7 140000).presentations = 1 := by
  decide

/-- **C7 (amended).** The deduplication key is composed of the item kind
and the item id only — `kind ++ "-" ++ id`, with the firing time-of-day
not part of the key — and it is the same for a polling trigger and a push
trigger of the same item, both of which enter through `triggerAlarm`'s
gate: a trigger is blocked exactly when the map holds a non-zero
timestamp under that kind-id key within the last 60 seconds. -/
theorem c7_dedup_key_characterization (m : List (String × Nat)) (k : Kind)
    (id : Nat) (t : Nat) :
    ((isDedupBlocked m k id t).1 = true ↔
      ∃ last, lookupKey m (kindStr k ++ "-" ++ toString id) = some last ∧
        last ≠ 0 ∧ t - last < 60000) ∧
    (∀ st : ClientState, pushTrigger st k id t = triggerAlarm st k id false t) := by
  refine ⟨?_, fun st => rfl⟩
  unfold isDedupBlocked dedupKey
  cases hL : lookupKey m (kindStr k ++ "-" ++ toString id) with
  | none => simp [hL]
  | some last =>
    simp only [hL]
    cases hC : (last != 0 && decide (t - last < 60000)) <;>
      simp_all [Bool.and_eq_true]

/-! ## C8: how long a dismissal suppresses re-triggers -/

/-- **C8 (counterexample).** A meeting presented at 10:00:00 and
dismissed at 10:00:10 (its `DismissedRecord` for 2026-10-12 is persisted)
is presented *again* the same calendar day by a push trigger arriving
70 seconds after the original one: the push path never consults the
dismissal records, and the dedup window has lapsed — refuting the claim
that the dismissal suppresses every re-trigger of the occurrence for the
remainder of the day. -/
theorem c8_cx_same_day_re_presentation :
    (dismissAlarm
      (pollMeetingStep { initialClientState with meetingsStore := [exMeeting] }
        exMeeting exNowMeeting 1000000)
      exNowMeeting 1010000).dismissalLog
      = [{ key := "meeting-3-10:00-2026-10-12", type := "meeting", id := 3,
           time := "10:00", date := "2026-10-12", dismissedAt := 1010000 }] ∧
    (pushTrigger
      (dismissAlarm
        (pollMeetingStep { initialClientState with meetingsStore := [exMeeting] }
          exMeeting exNowMeeting 1000000)
        exNowMeeting 1010000)
      .meeting 3 1070000).presentations = 2 ∧
    (pushTrigger
      (dismissAlarm
        (pollMeetingStep { initialClientState with meetingsStore := [exMeeting] }
          exMeeting exNowMeeting 1000000)
        exNowMeeting 1010000)
      .meeting 3 1070000).popup
      = some { id := 3, kind := .meeting, isDateAlarm := false } := by
  decide

/-- **C8 (amended).** A dismissal suppresses polling re-triggers only
while the current minute still equals the recorded dismissal minute: a
due alarm or meeting whose dismissal map holds the current minute is left
entirely untouched by its polling step. Push-delivered triggers never
consult the dismissal state at all — their outcome is unchanged under any
replacement of the dismissal maps and log (within 60 seconds of the
original trigger they are stopped by the dedup gate instead, and beyond
it they present again, as the counterexample shows). -/
theorem c8_suppression_is_same_minute_poll_only
    (st : ClientState) (a : Alarm) (mt : Meeting) (now : Instant) (t : Nat)
    (hduea : clientAlarmDue a now = true)
    (ha : lookupNS st.dismissedAlarms a.id = some now.time)
    (hduem : clientMeetingDue mt now = true)
    (hm : lookupNS st.dismissedMeetings mt.id = some now.time) :
    pollAlarmStep st a now t = st ∧
    pollMeetingStep st mt now t = st ∧
    (∀ (k : Kind) (id : Nat) (d1 d2 d3 : List (Nat × String))
       (log : List DismissedRecord),
      pushTrigger
        { st with
            dismissedAlarms := d1
            dismissedMeds := d2
            dismissedMeetings := d3
            dismissalLog := log } k id t
        = { pushTrigger st k id t with
              dismissedAlarms := d1
              dismissedMeds := d2
              dismissedMeetings := d3
              dismissalLog := log }) := by
  unfold clientAlarmDue at hduea
  rw [Bool.and_eq_true] at hduea
  obtain ⟨hA, hinner⟩ := hduea
  unfold clientMeetingDue at hduem
  rw [Bool.and_eq_true] at hduem
  obtain ⟨hE, hTD⟩ := hduem
  refine ⟨?_, ?_, ?_⟩
  · unfold pollAlarmStep
    rw [hA]
    simp [hinner, ha]
  · unfold pollMeetingStep
    rw [hE]
    simp [hTD, hm]
  · intro k id d1 d2 d3 log
    unfold pushTrigger triggerAlarm isDedupBlocked
    cases hL : lookupKey st.lastTriggered (dedupKey k id) <;>
      (simp [hL]; try split) <;> rfl

/-- **C8 (witness).** The suppression theorem at a concrete state whose
dismissal maps record alarm 1 and meeting 3 as dismissed at the current
minute 07:00 of 2026-10-12. -/
theorem c8_suppression_witness :
    pollAlarmStep
      { initialClientState with
          dismissedAlarms := [(1, "07:00")]
          dismissedMeetings := [(3, "07:00")] }
      exAlarmMon exNowMon 5000
      = { initialClientState with
            dismissedAlarms := [(1, "07:00")]
            dismissedMeetings := [(3, "07:00")] } ∧
    pollMeetingStep
      { initialClientState with
          dismissedAlarms := [(1, "07:00")]
          dismissedMeetings := [(3, "07:00")] }
      { id := 3, userId := "u", enabled := true, time := "07:00",
        date := "2026-10-12" }
      exNowMon 5000
      = { initialClientState with
            dismissedAlarms := [(1, "07:00")]
            dismissedMeetings := [(3, "07:00")] } ∧
    (∀ (k : Kind) (id : Nat) (d1 d2 d3 : List (Nat × String))
       (log : List DismissedRecord),
      pushTrigger
        { { initialClientState with
              dismissedAlarms := [(1, "07:00")]
              dismissedMeetings := [(3, "07:00")] } with
            dismissedAlarms := d1
            dismissedMeds := d2
            dismissedMeetings := d3
            dismissalLog := log } k id 5000
        = { pushTrigger
              { initialClientState with
                  dismissedAlarms := [(1, "07:00")]
                  dismissedMeetings := [(3, "07:00")] } k id 5000 with
              dismissedAlarms := d1
              dismissedMeds := d2
              dismissedMeetings := d3
              dismissalLog := log }) :=
  c8_suppression_is_same_minute_poll_only
    { initialClientState with
        dismissedAlarms := [(1, "07:00")]
        dismissedMeetings := [(3, "07:00")] }
    exAlarmMon
    { id := 3, userId := "u", enabled := true, time := "07:00",
      date := "2026-10-12" }
    exNowMon 5000
    (by decide) (by decide) (by decide) (by decide)

/-! ## C9: what the dismissal purge removes -/

/-- **C9 (counterexample).** With today = 2026-10-11, a dismissal record
dated 2026-10-12 — a date *not before* today — is nevertheless deleted by
`clearExpiredDismissals`, because the code deletes every record whose
date differs from today, not only those before it. This refutes "every
record dated today or later is left unchanged". -/
theorem c9_cx_future_dated_record_deleted :
    dateBefore "2026-10-12" "2026-10-11" = false ∧
    dateBefore "2026-10-11" "2026-10-12" = true ∧
    ("2026-10-12" : String) ≠ "2026-10-11" ∧
    (clearExpiredDismissals
      { alarms := [], medicines := [], meetings := [],
        dismissed := [{ key := "alarm-1-09:00-2026-10-12", type := "alarm",
                        id := 1, time := "09:00", date := "2026-10-12",
                        dismissedAt := 5 }] }
      "2026-10-11").dismissed = [] := by
  decide

/-- **C9 (amended).** `clearExpiredDismissals` removes exactly the
dismissal records whose date differs from today — every record dated
before today *and* every record dated after today — keeping precisely the
records dated today, and it leaves the alarms, medicines and meetings
stores untouched. -/
theorem c9_purge_keeps_exactly_today (db : OfflineDB) (today : String) :
    (∀ r, r ∈ (clearExpiredDismissals db today).dismissed ↔
      (r ∈ db.dismissed ∧ r.date = today)) ∧
    (clearExpiredDismissals db today).alarms = db.alarms ∧
    (clearExpiredDismissals db today).medicines = db.medicines ∧
    (clearExpiredDismissals db today).meetings = db.meetings := by
  refine ⟨?_, rfl, rfl, rfl⟩
  intro r
  simp [clearExpiredDismissals, List.mem_filter]

end Mypa
